import Mathlib

/-!
Verification of the fluid-gradient rendering pipeline
(`src/components/gradient-canvas.tsx`) against its specification.

The TypeScript source is shallowly embedded below.  JavaScript numbers are
modelled as real numbers (decimal literals become the exact rationals they
denote); the implicit byte quantisation performed by `Uint8ClampedArray`
stores is not modelled — buffers carry the values the source computes, and
every clamp or `Math.round` that appears literally in the source is embedded
explicitly.  `Math.round x` is `Int.floor (x + 1/2)`, which is JavaScript's
round-half-toward-positive-infinity.  Per-pixel `Math.random()` draws are an
explicit input stream, and the simplex-noise instance is an explicit function
parameter, so the pipeline is a pure function of its inputs.
-/

/-- JavaScript `Math.round` on rationals: half-values round toward +infinity. -/
def jsRoundQ (q : ℚ) : ℤ := (q + 1/2).floor

/-- JavaScript `Math.round` on reals, as an integer. -/
noncomputable def jsRound (v : ℝ) : ℤ := ⌊v + 1/2⌋

/-- JavaScript `Math.round` on reals, coerced back to the value stored. -/
noncomputable def jsRoundR (v : ℝ) : ℝ := (jsRound v : ℝ)

/-- Clamp a channel value to the byte range, `Math.max(0, Math.min(255, v))`. -/
noncomputable def clamp255 (v : ℝ) : ℝ := max 0 (min 255 v)

/-- One RGBA pixel of the frame buffer. -/
@[ext]
structure Pixel where
  r : ℝ
  g : ℝ
  b : ℝ
  a : ℝ

/-- A frame buffer: total map from integer coordinates to pixels.  The source
only ever reads coordinates clamped into `[0, width) × [0, height)`. -/
def Buffer : Type := ℤ → ℤ → Pixel

/-- An RGB triple (channel values are JavaScript numbers). -/
def RGB : Type := ℝ × ℝ × ℝ

-- ------------------------------------------------------------------
-- Color decoding (`hexToRgb`, gradient-canvas.tsx lines 34-39)
-- ------------------------------------------------------------------

/-- Value of one hexadecimal digit, `none` when the character is not one. -/
def hexDigit? (c : Char) : Option ℕ :=
  if '0' ≤ c ∧ c ≤ '9' then some (c.toNat - 48)
  else if 'a' ≤ c ∧ c ≤ 'f' then some (c.toNat - 87)
  else if 'A' ≤ c ∧ c ≤ 'F' then some (c.toNat - 55)
  else none

/-- JavaScript `Number.parseInt(s, 16)`: parse the longest prefix of hex
digits; an empty prefix yields `NaN`, modelled as `none`. -/
def parseIntHex (s : List Char) : Option ℕ :=
  let digits := s.takeWhile (fun c => (hexDigit? c).isSome)
  if digits.isEmpty then none
  else some (digits.foldl (fun acc c => acc * 16 + (hexDigit? c).getD 0) 0)

/-- JavaScript `String.prototype.slice` on a character list. -/
def jsSlice (s : List Char) (a b : ℕ) : List Char := (s.drop a).take (b - a)

/-- Source `hexToRgb` (lines 34-39): parses `hex.slice(1,3)`, `hex.slice(3,5)` and
`hex.slice(5,7)` as hex integers and returns the triple unconditionally.
A `none` channel is the `NaN` that `parseInt` produces on malformed input;
no error is ever raised. -/
def hexToRgb (hex : String) : Option ℕ × Option ℕ × Option ℕ :=
  (parseIntHex (jsSlice hex.data 1 3),
   parseIntHex (jsSlice hex.data 3 5),
   parseIntHex (jsSlice hex.data 5 7))

-- ------------------------------------------------------------------
-- Color interpolation (`glowBlend`, `interpolateMultiColorGlow`, lines 77-125)
-- ------------------------------------------------------------------

/-- Source `glowBlend` (lines 77-101).  The `undefined` fallbacks of the source are
the `Option` cases. -/
noncomputable def glowBlend (c1 c2 : Option RGB) (t glow : ℝ) : RGB :=
  match c1, c2 with
  | none, none => (0, 0, 0)
  | none, some c => c
  | some c, none => c
  | some p, some q =>
    let base : RGB := (p.1 * (1 - t) + q.1 * t,
                       p.2.1 * (1 - t) + q.2.1 * t,
                       p.2.2 * (1 - t) + q.2.2 * t)
    let g := Real.exp (-((t - 0.5) * 4) ^ 2) * glow * 255
    (min 255 (base.1 + g), min 255 (base.2.1 + g), min 255 (base.2.2 + g))

/-- Source `interpolateMultiColorGlow` (lines 104-125). -/
noncomputable def interpolateMultiColorGlow
    (colorArr : List RGB) (t glow : ℝ) : RGB :=
  let n := colorArr.length
  if n = 0 then (0, 0, 0)
  else if n = 1 then colorArr.headD (0, 0, 0)
  else
    let scaled := t * ((n : ℝ) - 1)
    let idx0 : ℤ := ⌊scaled⌋
    let frac0 : ℝ := scaled - idx0
    let idx1 : ℤ := if idx0 < 0 then 0 else idx0
    let frac1 : ℝ := if idx0 < 0 then 0 else frac0
    let idx : ℤ := if idx1 ≥ (n : ℤ) - 1 then (n : ℤ) - 2 else idx1
    let frac : ℝ := if idx1 ≥ (n : ℤ) - 1 then 1 else frac1
    glowBlend (colorArr.get? idx.toNat) (colorArr.get? (idx.toNat + 1)) frac glow

-- ------------------------------------------------------------------
-- Grain (lines 233-247: value stored per pixel during the base pass)
-- ------------------------------------------------------------------

/-- Per-pixel grain value (lines 235-238): zero unless `grainAmount > 0`,
otherwise `(Math.random() - 0.5) * grainAmount * 50` with `rand` the
pixel's `Math.random()` draw. -/
noncomputable def grainValue (grainAmount rand : ℝ) : ℝ :=
  if grainAmount > 0 then (rand - 0.5) * grainAmount * 50 else 0

/-- The grain map the base pass stores (`window.grainMap`), keyed by pixel. -/
noncomputable def grainMapOf (grainAmount : ℝ) (rand : ℤ → ℤ → ℝ) :
    ℤ → ℤ → ℝ :=
  fun x y => grainValue grainAmount (rand x y)

/-- Grain application (lines 425-430 and identically 440-445): the same grain
value is added to R, G and B and each channel is clamped to `[0, 255]`;
alpha is untouched. -/
noncomputable def applyGrain (buf : Buffer) (gm : ℤ → ℤ → ℝ) : Buffer :=
  fun x y =>
    ⟨clamp255 ((buf x y).r + gm x y),
     clamp255 ((buf x y).g + gm x y),
     clamp255 ((buf x y).b + gm x y),
     (buf x y).a⟩

-- ------------------------------------------------------------------
-- Ribbon field synthesis (lines 150-189)
-- ------------------------------------------------------------------

/-- Diagonal coordinate `(nx + (1 - ny)) / 2` (line 155). -/
noncomputable def diagOf (nx ny : ℝ) : ℝ := (nx + (1 - ny)) / 2

/-- Main ribbon curve (lines 159-164); `mainPhase = 0` as in the source. -/
noncomputable def mainCurveOf (noise : ℝ → ℝ → ℝ) (nx ny : ℝ) : ℝ :=
  let mainPhase : ℝ := 0
  let mainBase := diagOf nx ny + 0.06 * Real.sin (ny * Real.pi * 1.2 + mainPhase)
  let mainTwist := 0.1 * noise (nx * 2 + mainPhase) (ny * 2 + mainPhase)
  mainBase + mainTwist

/-- Distance from the main ribbon centre (line 167). -/
noncomputable def mainDistOf (noise : ℝ → ℝ → ℝ) (nx ny : ℝ) : ℝ :=
  |diagOf nx ny - mainCurveOf noise nx ny|

/-- Soft band of the main ribbon (line 169). -/
noncomputable def mainBandOf (noise : ℝ → ℝ → ℝ) (nx ny : ℝ) : ℝ :=
  Real.exp (-mainDistOf noise nx ny * 32)

/-- One branch band term (lines 173-187), for branch index `b`. -/
noncomputable def branchTerm (noise : ℝ → ℝ → ℝ) (nx ny : ℝ) (b : ℝ) : ℝ :=
  let branchPhase := b * 1.2
  let branchCurve := mainCurveOf noise nx ny
    + 0.08 * Real.sin (ny * Real.pi * (1.1 + 0.2 * b) + branchPhase)
    + 0.05 * noise (nx * 3 + branchPhase * 10) (ny * 3 + branchPhase * 10)
  let branchDist := |diagOf nx ny - branchCurve|
  Real.exp (-branchDist * 40) * 0.7

/-- Accumulated branch band, branches `b ∈ \x7b1, 2\x7d` (lines 172-187). -/
noncomputable def branchBandOf (noise : ℝ → ℝ → ℝ) (nx ny : ℝ) : ℝ :=
  branchTerm noise nx ny 1 + branchTerm noise nx ny 2

/-- Ribbon occupancy `min(1, mainBand + branchBand)` (line 189). -/
noncomputable def occupancy (noise : ℝ → ℝ → ℝ) (nx ny : ℝ) : ℝ :=
  min 1 (mainBandOf noise nx ny + branchBandOf noise nx ny)

-- ------------------------------------------------------------------
-- Base pass: gradient, ribbon blend, fade, highlight (lines 146-248)
-- ------------------------------------------------------------------

/-- One pixel of the base pass (loop body, lines 148-243).  Grain is stored
separately (`grainMapOf`), exactly as the source defers it. -/
noncomputable def basePassPixel (noise : ℝ → ℝ → ℝ) (rgbColors : List RGB)
    (ribbonColorRgb : RGB) (w h x y : ℤ) : Pixel :=
  let nx : ℝ := (x : ℝ) / (w : ℝ)
  let ny : ℝ := (y : ℝ) / (h : ℝ)
  let diag := diagOf nx ny
  let mainDist := mainDistOf noise nx ny
  let ribbon := occupancy noise nx ny
  let cx : ℝ := (w : ℝ) / 2
  let cy : ℝ := (h : ℝ) / 2
  let dx : ℝ := (x : ℝ) - cx
  let dy : ℝ := (y : ℝ) - cy
  let radius := Real.sqrt (dx * dx + dy * dy) / Real.sqrt (cx * cx + cy * cy)
  let gradT := max 0 (min 1 (diag * 0.7 + radius * 0.3))
  let bg := interpolateMultiColorGlow rgbColors gradT 0.18
  let c0 : RGB := (bg.1 * (1 - ribbon) + ribbonColorRgb.1 * ribbon,
                   bg.2.1 * (1 - ribbon) + ribbonColorRgb.2.1 * ribbon,
                   bg.2.2 * (1 - ribbon) + ribbonColorRgb.2.2 * ribbon)
  let fade := Real.exp (-mainDist * 12)
  let c1 : RGB := (c0.1 * fade + bg.1 * (1 - fade),
                   c0.2.1 * fade + bg.2.1 * (1 - fade),
                   c0.2.2 * fade + bg.2.2 * (1 - fade))
  let highlight := Real.exp (-((ny - 0.18) * 3) ^ 2)
    * |Real.sin (nx * Real.pi * 2 + gradT * 2)| * 28 * ribbon
  ⟨min 255 (c1.1 + highlight),
   min 255 (c1.2.1 + highlight),
   min 255 (c1.2.2 + highlight),
   255⟩

/-- The whole base-pass buffer. -/
noncomputable def basePass (noise : ℝ → ℝ → ℝ) (rgbColors : List RGB)
    (ribbonColorRgb : RGB) (w h : ℤ) : Buffer :=
  fun x y => basePassPixel noise rgbColors ribbonColorRgb w h x y

-- ------------------------------------------------------------------
-- Glass stripe pass geometry (lines 252-263)
-- ------------------------------------------------------------------

/-- Constant `numStripes = 28` (line 252). -/
def numStripes : ℕ := 28

/-- Source `stripeWidth = width / numStripes` (line 253), exact rational. -/
def stripeWidth (w : ℤ) : ℚ := (w : ℚ) / (numStripes : ℚ)

/-- Source `gap = Math.max(2, Math.round(stripeWidth * 0.18))` (line 254). -/
def gapOf (w : ℤ) : ℤ := max 2 (jsRoundQ (stripeWidth w * 0.18))

/-- Blur radius, `Math.max(2, Math.round(stripeWidth * 0.18))`
(lines 269 and 310; numerically equal to `gapOf`). -/
def blurRadiusOf (w : ℤ) : ℤ := max 2 (jsRoundQ (stripeWidth w * 0.18))

/-- Source `xStart = Math.round(i * stripeWidth + gap)` (line 262). -/
def stripeXStart (w : ℤ) (i : ℕ) : ℤ :=
  jsRoundQ ((i : ℚ) * stripeWidth w + (gapOf w : ℚ))

/-- Source `xEnd = Math.round((i + 1) * stripeWidth - gap)` (line 263). -/
def stripeXEnd (w : ℤ) (i : ℕ) : ℤ :=
  jsRoundQ (((i : ℚ) + 1) * stripeWidth w - (gapOf w : ℚ))

-- ------------------------------------------------------------------
-- Box blur (gap blur lines 267-304, band blur lines 309-337)
-- ------------------------------------------------------------------

/-- Horizontal read coordinate clamp `Math.max(0, Math.min(width - 1, x))`. -/
def clampX (w x : ℤ) : ℤ := max 0 (min (w - 1) x)

/-- Offsets `bx = -radius .. radius` of the blur window. -/
def boxWindow (radius : ℤ) : List ℤ :=
  (List.range (2 * radius + 1).toNat).map (fun (k : ℕ) => -radius + (k : ℤ))

/-- Unweighted window average of each channel (`rSum/count` etc.); the
source increments `count` for every offset, clamped or not, so the divisor
is `2 * radius + 1`. -/
noncomputable def boxMean (w radius : ℤ) (buf : Buffer) (x y : ℤ) : RGB :=
  let pts := (boxWindow radius).map (fun bx => buf (clampX w (x + bx)) y)
  let count : ℝ := 2 * (radius : ℝ) + 1
  ((pts.map Pixel.r).sum / count,
   (pts.map Pixel.g).sum / count,
   (pts.map Pixel.b).sum / count)

/-- Blend `Math.round(old * 0.3 + mean * 0.7)` per colour channel; alpha untouched
(lines 288-298 and 325-335). -/
noncomputable def blurBlend (old : Pixel) (m : RGB) : Pixel :=
  ⟨jsRoundR (old.r * 0.3 + m.1 * 0.7),
   jsRoundR (old.g * 0.3 + m.2.1 * 0.7),
   jsRoundR (old.b * 0.3 + m.2.2 * 0.7),
   old.a⟩

/-- Blur one column in place: every row of column `x` is replaced by the
blend of its old value with the window mean read from the *current* buffer.
This is the body of the `x` loops at lines 270-300 and 311-337. -/
noncomputable def blurColumn (w h radius : ℤ) (buf : Buffer) (x : ℤ) : Buffer :=
  fun xq yq =>
    if xq = x ∧ 0 ≤ yq ∧ yq < h then blurBlend (buf x yq) (boxMean w radius buf x yq)
    else buf xq yq

/-- Integer interval `[a, b)` as the list of columns a JS `for` loop visits. -/
def colsOf (a b : ℤ) : List ℤ :=
  (List.range (b - a).toNat).map (fun (k : ℕ) => a + (k : ℤ))

/-- In-place band blur over the stripe interior `[xs, xe)`
(lines 310-337): columns are processed left to right, each reading the
buffer as already modified by the previous columns. -/
noncomputable def bandBlur (w h radius xs xe : ℤ) (buf : Buffer) : Buffer :=
  (colsOf xs xe).foldl (blurColumn w h radius) buf

/-- One column of `blurGap` (lines 270-300), with the
`if (x < 0 || x >= ctx.canvas.width) continue` guard of line 271. -/
noncomputable def blurGapColumn (w h radius : ℤ) (buf : Buffer) (x : ℤ) : Buffer :=
  if x < 0 ∨ w ≤ x then buf else blurColumn w h radius buf x

/-- Source `blurGap(xStart, gwidth)` (lines 268-301): in-place blur of the gap
columns `[xs, xs + gwidth)`. -/
noncomputable def blurGap (w h radius xs gwidth : ℤ) (buf : Buffer) : Buffer :=
  (colsOf xs (xs + gwidth)).foldl (blurGapColumn w h radius) buf

/-- Modelled from the spec, for comparison with the in-place `bandBlur` of
the source: the spec's hard invariant says the Glass Stripe Pass "never
reads from the buffer it is writing into", so this variant computes every
window mean from the buffer as it stood when the step started. -/
noncomputable def bandBlurFromSnapshot (w h radius xs xe : ℤ) (buf : Buffer) : Buffer :=
  fun x y =>
    if (xs ≤ x ∧ x < xe) ∧ 0 ≤ y ∧ y < h then blurBlend (buf x y) (boxMean w radius buf x y)
    else buf x y

-- ------------------------------------------------------------------
-- Displacement, edge reflection, compositing (lines 339-419)
-- ------------------------------------------------------------------

/-- The (r, g, b) triple the displacement step reads (lines 349-358): the
source coordinate is `x` shifted sinusoidally and clamped, and the pixel is
read from `src` — the buffer captured by `ctx.getImageData` at line 259. -/
noncomputable def stripeSample (w : ℤ) (sw : ℚ) (xs xe : ℤ) (src : Buffer)
    (x y : ℤ) : RGB :=
  let center : ℝ := ((xs : ℝ) + (xe : ℝ)) / 2
  let dist : ℝ := |(x : ℝ) - center|
  let edgeSoftness : ℝ := (sw : ℝ) * 0.09
  let edgeAlpha : ℝ := Real.exp (-(dist / edgeSoftness) ^ 2)
  let maxShift : ℝ := (sw : ℝ) * 0.22
  let shift : ℝ := Real.sin (Real.pi * ((x : ℝ) - (xs : ℝ)) / ((xe : ℝ) - (xs : ℝ)))
    * maxShift * edgeAlpha
  let srcX : ℤ := clampX w (jsRound ((x : ℝ) + shift))
  ((src srcX y).r, (src srcX y).g, (src srcX y).b)

/-- Full displacement/reflection/compositing body for one pixel
(lines 340-417).  `cur` is the working-buffer pixel being written
(`data[dstIdx]`), `src` the snapshot read for sampling and reflection. -/
noncomputable def displacePixel (w : ℤ) (sw : ℚ) (xs xe : ℤ) (src : Buffer)
    (cur : Pixel) (x y : ℤ) : Pixel :=
  let center : ℝ := ((xs : ℝ) + (xe : ℝ)) / 2
  let dist : ℝ := |(x : ℝ) - center|
  let edgeSoftness : ℝ := (sw : ℝ) * 0.09
  let edgeAlpha : ℝ := Real.exp (-(dist / edgeSoftness) ^ 2)
  let s := stripeSample w sw xs xe src x y
  let brightness : ℝ := (s.1 + s.2.1 + s.2.2) / (3 * 255)
  let baseAlpha : ℝ := 0.32 + 0.32 * (1 - brightness)
  let alpha : ℝ := edgeAlpha * baseAlpha
  let reflectStrength : ℝ := max 0 (1 - |((x : ℝ) - center) / ((sw : ℝ) * 0.5)|)
  let reflect : RGB :=
    if ((x - xs : ℤ) : ℚ) < sw * 0.18 then
      let reflectX : ℤ := min (xe - 1) (x + jsRoundQ (sw * 0.7))
      ((src reflectX y).r, (src reflectX y).g, (src reflectX y).b)
    else if ((xe - x : ℤ) : ℚ) < sw * 0.18 then
      let reflectX : ℤ := max xs (x - jsRoundQ (sw * 0.7))
      ((src reflectX y).r, (src reflectX y).g, (src reflectX y).b)
    else s
  let edgeBlend : ℝ := 0.55 * reflectStrength * edgeAlpha
  let finalR : ℝ := jsRoundR (s.1 * (1 - edgeBlend) + reflect.1 * edgeBlend)
  let finalG : ℝ := jsRoundR (s.2.1 * (1 - edgeBlend) + reflect.2.1 * edgeBlend)
  let finalB : ℝ := jsRoundR (s.2.2 * (1 - edgeBlend) + reflect.2.2 * edgeBlend)
  ⟨jsRoundR (finalR * alpha + cur.r * (1 - alpha)),
   jsRoundR (finalG * alpha + cur.g * (1 - alpha)),
   jsRoundR (finalB * alpha + cur.b * (1 - alpha)),
   cur.a⟩

/-- One column of the displacement loop (lines 339-419): writes every row of
column `x`; the working buffer is read only at the pixel being written. -/
noncomputable def displaceColumn (w h : ℤ) (sw : ℚ) (xs xe : ℤ) (src : Buffer)
    (buf : Buffer) (x : ℤ) : Buffer :=
  fun xq yq =>
    if xq = x ∧ 0 ≤ yq ∧ yq < h then displacePixel w sw xs xe src (buf x yq) x yq
    else buf xq yq

/-- The displacement step over the stripe interior, columns left to right. -/
noncomputable def displaceStep (w h : ℤ) (sw : ℚ) (xs xe : ℤ) (src : Buffer)
    (buf : Buffer) : Buffer :=
  (colsOf xs xe).foldl (displaceColumn w h sw xs xe src) buf

-- ------------------------------------------------------------------
-- Stripe loop and frame orchestration (lines 250-449)
-- ------------------------------------------------------------------

/-- Processing of stripe `i` (loop body, lines 261-420): skip when the
interior is empty (line 264, *before* any gap blur); otherwise blur the two
gaps, blur the band, then displace/composite.  `src` is the snapshot taken
once before the loop (line 259). -/
noncomputable def processStripe (w h : ℤ) (src : Buffer) (buf : Buffer) (i : ℕ) : Buffer :=
  let sw := stripeWidth w
  let gap := gapOf w
  let xs := stripeXStart w i
  let xe := stripeXEnd w i
  if xe ≤ xs then buf
  else
    let b1 := if 0 < gap then
        blurGap w h (blurRadiusOf w) xe gap
          (blurGap w h (blurRadiusOf w) (jsRoundQ ((i : ℚ) * sw)) gap buf)
      else buf
    let b2 := bandBlur w h (blurRadiusOf w) xs xe b1
    displaceStep w h sw xs xe src b2

/-- The whole Glass Stripe Pass (lines 261-420): `src` is `srcData`, the
`ctx.getImageData` snapshot, and `buf` the working `data` buffer. -/
noncomputable def stripePass (w h : ℤ) (src : Buffer) (buf : Buffer) : Buffer :=
  (List.range numStripes).foldl (processStripe w h src) buf

/-- One frame (the body of the render effect once past its guard,
lines 131-448).  `prevCanvas` is what `ctx.getImageData(0,0,w,h)` returns at
line 259: the canvas content left by the *previous* `putImageData`, or a
blank canvas on the first render — the base pass has not been put to the
canvas when the snapshot is taken. -/
noncomputable def renderFrame (noise : ℝ → ℝ → ℝ) (rgbColors : List RGB)
    (ribbonColorRgb : RGB) (grainAmount : ℝ) (rand : ℤ → ℤ → ℝ)
    (verticalStripes : Bool) (prevCanvas : Buffer) (w h : ℤ) : Buffer :=
  let base := basePass noise rgbColors ribbonColorRgb w h
  let gm := grainMapOf grainAmount rand
  if verticalStripes then applyGrain (stripePass w h prevCanvas base) gm
  else applyGrain base gm

/-- The render effect with its dimension guard (lines 128-129):
`if (!canvasRef.current || !dimensions.width || !dimensions.height) return;`.
Dimensions come from `getBoundingClientRect` and are never negative, so they
are modelled as naturals; a zero width or height is falsy and aborts the
effect before anything is drawn. -/
noncomputable def renderEffect (noise : ℝ → ℝ → ℝ) (rgbColors : List RGB)
    (ribbonColorRgb : RGB) (grainAmount : ℝ) (rand : ℤ → ℤ → ℝ)
    (verticalStripes : Bool) (prevCanvas : Buffer) (width height : ℕ) :
    Option Buffer :=
  if width = 0 ∨ height = 0 then none
  else some (renderFrame noise rgbColors ribbonColorRgb grainAmount rand
    verticalStripes prevCanvas (width : ℤ) (height : ℤ))

-- ------------------------------------------------------------------
-- Component props and the render effect's dependency list (lines 6-15, 450-459)
-- ------------------------------------------------------------------

/-- The `GradientCanvasProps` interface (lines 6-15).  Numeric props carry
the rational values the UI supplies. -/
structure GradientCanvasProps where
  colors : List String
  grainAmount : ℚ
  glassEffect : Option Bool
  glassStripes : Option ℚ
  glassOpacity : Option ℚ
  isAnimating : Option Bool
  verticalStripes : Option Bool
  ribbonColor : Option String

/-- The dependency list of the render `useEffect` (lines 450-459):
`[dimensions.width, dimensions.height, colors, grainAmount, glassEffect,
glassStripes, glassOpacity, verticalStripes]`.  React re-runs the effect only
when some entry of this tuple changes; `ribbonColor` does not appear in it. -/
def renderEffectDeps (dims : ℚ × ℚ) (p : GradientCanvasProps) :
    ℚ × ℚ × List String × ℚ × Option Bool × Option ℚ × Option ℚ × Option Bool :=
  (dims.1, dims.2, p.colors, p.grainAmount, p.glassEffect, p.glassStripes,
   p.glassOpacity, p.verticalStripes)

-- ------------------------------------------------------------------
-- Concrete frame used to exercise the in-place blur
-- ------------------------------------------------------------------

/-- A one-row frame that is black except for a bright pixel in column 3;
inside stripe 0 of a 168-pixel-wide frame this is enough to observe the
in-place band blur reading a column it has already overwritten. -/
noncomputable def cexBuf : Buffer :=
  fun x _ => if x = 3 then ⟨250, 250, 250, 255⟩ else ⟨0, 0, 0, 255⟩

-- ==================================================================
-- Claim theorems
-- ==================================================================

/-- C8: the color interpolator returns (0,0,0) for the empty stop list, and
for a single-stop list returns that stop unchanged for every t and every
glow value. -/
theorem interpolate_empty_and_single (t glow : ℝ) (c : RGB) :
    interpolateMultiColorGlow [] t glow = (0, 0, 0) ∧
    interpolateMultiColorGlow [c] t glow = c := by
  constructor <;> rfl

/-- C4 (code defect): color decoding never fails.  For the malformed input
"#gggggg" — not a 6-digit hex triplet — `hexToRgb` silently returns the
triple of `NaN`s that `Number.parseInt` produces (no `InvalidColorFormat`
failure exists anywhere in the program), while a well-formed input yields
plain channel values through the same non-validating path. -/
theorem hexToRgb_silent_on_malformed :
    hexToRgb "#gggggg" = (none, none, none) ∧
    hexToRgb "#ff8000" = (some 255, some 128, some 0) := by
  constructor <;> rfl

/-- C7: for normalized coordinates in the unit square and any noise function
with range contained in [-1, 1], the ribbon occupancy lies in [0, 1]. -/
theorem occupancy_mem_unit_interval (noise : ℝ → ℝ → ℝ)
    (hnoise : ∀ x y, -1 ≤ noise x y ∧ noise x y ≤ 1) (nx ny : ℝ)
    (hnx : 0 ≤ nx ∧ nx ≤ 1) (hny : 0 ≤ ny ∧ ny ≤ 1) :
    0 ≤ occupancy noise nx ny ∧ occupancy noise nx ny ≤ 1 := by
  have hmain : 0 < mainBandOf noise nx ny := by
    simp only [mainBandOf]; positivity
  have hb1 : 0 < branchTerm noise nx ny 1 := by
    simp only [branchTerm]; positivity
  have hb2 : 0 < branchTerm noise nx ny 2 := by
    simp only [branchTerm]; positivity
  constructor
  · exact le_min zero_le_one
      (by simp only [branchBandOf]; nlinarith)
  · exact min_le_left _ _

/-- Witness for C7 at the zero noise function and the origin. -/
theorem occupancy_mem_unit_interval_witness :
    (0 ≤ (0 : ℝ) ∧ (0 : ℝ) ≤ 1) ∧
    (0 ≤ occupancy (fun _ _ => 0) 0 0 ∧ occupancy (fun _ _ => 0) 0 0 ≤ 1) :=
  ⟨by norm_num,
   occupancy_mem_unit_interval (fun _ _ => 0) (fun _ _ => by norm_num) 0 0
     (by norm_num) (by norm_num)⟩

/-- C9: with a non-positive (i.e. zero, since dimensions from
`getBoundingClientRect` are never negative) target width or height, the
render effect aborts at its guard and produces no buffer. -/
theorem renderEffect_noop_on_degenerate_dims (noise : ℝ → ℝ → ℝ)
    (rgbColors : List RGB) (ribbonColorRgb : RGB) (grainAmount : ℝ)
    (rand : ℤ → ℤ → ℝ) (verticalStripes : Bool) (prevCanvas : Buffer)
    (width height : ℕ) (hdim : width = 0 ∨ height = 0) :
    renderEffect noise rgbColors ribbonColorRgb grainAmount rand
      verticalStripes prevCanvas width height = none := by
  simp only [renderEffect, if_pos hdim]

/-- Witness for C9 at width 0, height 7. -/
theorem renderEffect_noop_on_degenerate_dims_witness :
    ((0 : ℕ) = 0 ∨ (7 : ℕ) = 0) ∧
    renderEffect (fun _ _ => 0) [] (0, 0, 0) 0 (fun _ _ => 0) false
      (fun _ _ => ⟨0, 0, 0, 255⟩) 0 7 = none :=
  ⟨Or.inl rfl,
   renderEffect_noop_on_degenerate_dims (fun _ _ => 0) [] (0, 0, 0) 0
     (fun _ _ => 0) false (fun _ _ => ⟨0, 0, 0, 255⟩) 0 7 (Or.inl rfl)⟩

/-- C5 counterexample: the render does not clamp `grainAmount` into [0, 1]
before use.  At `grainAmount = 2` with random draw 0 the grain value is -50,
not the -25 that the clamped amount would give, so the magnitude exceeds the
`grainAmount = 1` maximum of 25. -/
theorem grainValue_not_clamped :
    grainValue 2 0 ≠ grainValue (min 1 (max 0 2)) 0 ∧ |grainValue 2 0| > 25 := by
  constructor <;> norm_num [grainValue]

/-- C5 amended: `grainAmount` is used unclamped.  Amounts `≤ 0` yield zero
grain, and positive amounts scale the per-pixel magnitude linearly, bounded
by `25 * grainAmount` rather than by 25. -/
theorem grainValue_scales_with_amount (grainAmount rand : ℝ)
    (h0 : 0 ≤ rand) (h1 : rand ≤ 1) :
    |grainValue grainAmount rand| ≤ 25 * max grainAmount 0 := by
  unfold grainValue
  split
  case isTrue h =>
    rw [max_eq_left h.le]
    have habs : |rand - 0.5| ≤ 0.5 := abs_le.mpr ⟨by linarith, by linarith⟩
    calc |(rand - 0.5) * grainAmount * 50|
        = |rand - 0.5| * grainAmount * 50 := by
          rw [abs_mul, abs_mul, abs_of_pos h,
            abs_of_nonneg (by norm_num : (0 : ℝ) ≤ 50)]
      _ ≤ 0.5 * grainAmount * 50 := by nlinarith
      _ = 25 * grainAmount := by ring
  case isFalse h =>
    rw [abs_zero]
    positivity

/-- Witness for the amended C5 at `grainAmount = 2`, random draw 0. -/
theorem grainValue_scales_with_amount_witness :
    (0 ≤ (0 : ℝ) ∧ (0 : ℝ) ≤ 1) ∧ |grainValue 2 0| ≤ 25 * max 2 0 :=
  ⟨by norm_num, grainValue_scales_with_amount 2 0 le_rfl (by norm_num)⟩

/-- C3 (code defect): two prop snapshots that differ only in `ribbonColor`
produce identical render-effect dependency tuples, because `ribbonColor` is
missing from the dependency list (lines 450-459).  React therefore never
re-runs the render when only the ribbon color changes: no second frame is
produced at all, so no pixel — however high its occupancy — moves toward the
new ribbon color. -/
theorem ribbonColor_missing_from_render_deps :
    renderEffectDeps (800, 600)
      ⟨["#FF4500", "#FF0000", "#000000"], 0, none, none, none, none,
        some false, some "#000000"⟩ =
    renderEffectDeps (800, 600)
      ⟨["#FF4500", "#FF0000", "#000000"], 0, none, none, none, none,
        some false, some "#ff0000"⟩ ∧
    (some "#000000" : Option String) ≠ some "#ff0000" := by
  constructor
  · rfl
  · decide

/-- C6 counterexample: because each channel is clamped to [0, 255] after the
grain value is added, the deviation from the grain-off buffer is not always
identical across R, G and B.  At a pixel with channels (255, 0, 0) and grain
value 10, the red deviation is 0 (clamped) while the green deviation is 10. -/
theorem applyGrain_deviation_not_channel_uniform :
    (applyGrain (fun _ _ => ⟨255, 0, 0, 255⟩) (fun _ _ => 10) 0 0).r - 255 ≠
    (applyGrain (fun _ _ => ⟨255, 0, 0, 255⟩) (fun _ _ => 10) 0 0).g - 0 := by
  norm_num [applyGrain, clamp255]

/-- C6 amended: the grain pass adds the same per-pixel grain value to R, G
and B and then clamps each channel to [0, 255]; alpha is never touched; it
runs strictly after every other pass (after the Glass Stripe Pass when
stripes are on, directly after the base pass otherwise); and whenever no
channel clamps, the deviation from the grain-off value is the grain value
itself, identical across the three channels. -/
theorem applyGrain_uniform_up_to_clamp (buf : Buffer) (gm : ℤ → ℤ → ℝ)
    (x y : ℤ) :
    (applyGrain buf gm x y).a = (buf x y).a ∧
    (applyGrain buf gm x y).r = clamp255 ((buf x y).r + gm x y) ∧
    (applyGrain buf gm x y).g = clamp255 ((buf x y).g + gm x y) ∧
    (applyGrain buf gm x y).b = clamp255 ((buf x y).b + gm x y) ∧
    ((0 ≤ (buf x y).r + gm x y ∧ (buf x y).r + gm x y ≤ 255) →
      (0 ≤ (buf x y).g + gm x y ∧ (buf x y).g + gm x y ≤ 255) →
      (0 ≤ (buf x y).b + gm x y ∧ (buf x y).b + gm x y ≤ 255) →
      (applyGrain buf gm x y).r - (buf x y).r = gm x y ∧
      (applyGrain buf gm x y).g - (buf x y).g = gm x y ∧
      (applyGrain buf gm x y).b - (buf x y).b = gm x y) ∧
    (∀ (noise : ℝ → ℝ → ℝ) (cs : List RGB) (rc : RGB) (ga : ℝ)
      (rand : ℤ → ℤ → ℝ) (prev : Buffer) (w h : ℤ),
      renderFrame noise cs rc ga rand true prev w h =
        applyGrain (stripePass w h prev (basePass noise cs rc w h))
          (grainMapOf ga rand) ∧
      renderFrame noise cs rc ga rand false prev w h =
        applyGrain (basePass noise cs rc w h) (grainMapOf ga rand)) := by
  refine ⟨rfl, rfl, rfl, rfl, ?_, fun _ _ _ _ _ _ _ _ => ⟨rfl, rfl⟩⟩
  intro hr hg hb
  simp only [applyGrain, clamp255]
  rw [min_eq_right hr.2, max_eq_right hr.1, min_eq_right hg.2,
    max_eq_right hg.1, min_eq_right hb.2, max_eq_right hb.1]
  refine ⟨by ring, by ring, by ring⟩

/-- Witness for the amended C6 at a pixel where no channel clamps. -/
theorem applyGrain_uniform_up_to_clamp_witness :
    (applyGrain (fun _ _ => ⟨100, 50, 25, 255⟩) (fun _ _ => 10) 0 0).r - 100 = 10 ∧
    (applyGrain (fun _ _ => ⟨100, 50, 25, 255⟩) (fun _ _ => 10) 0 0).g - 50 = 10 ∧
    (applyGrain (fun _ _ => ⟨100, 50, 25, 255⟩) (fun _ _ => 10) 0 0).b - 25 = 10 := by
  have h := applyGrain_uniform_up_to_clamp
    (fun _ _ => ⟨100, 50, 25, 255⟩) (fun _ _ => 10) 0 0
  obtain ⟨-, -, -, -, himp, -⟩ := h
  simpa using himp (by norm_num) (by norm_num) (by norm_num)

/-- C1 (code defect): the stripe pass's displacement sampling reads from
`srcData`, the `getImageData` snapshot taken at line 259 — which is the
canvas content from *before* any `putImageData` of this render, i.e. the
previous frame or a blank canvas — never from the base-pass buffer.  With a
blank previous canvas and an all-white base pass, every sampled value is
(0, 0, 0), not the (255, 255, 255) the base-pass snapshot holds. -/
theorem stripe_sampling_reads_stale_canvas :
    (∀ (noise : ℝ → ℝ → ℝ) (cs : List RGB) (rc : RGB) (ga : ℝ)
      (rand : ℤ → ℤ → ℝ) (prev : Buffer) (w h : ℤ),
      renderFrame noise cs rc ga rand true prev w h =
        applyGrain (stripePass w h prev (basePass noise cs rc w h))
          (grainMapOf ga rand)) ∧
    (∀ (w : ℤ) (sw : ℚ) (xs xe x y : ℤ),
      stripeSample w sw xs xe (fun _ _ => ⟨0, 0, 0, 255⟩) x y = (0, 0, 0)) ∧
    stripeSample 140 5 2 3 (fun _ _ => ⟨0, 0, 0, 255⟩) 2 0 ≠
      stripeSample 140 5 2 3 (fun _ _ => ⟨255, 255, 255, 255⟩) 2 0 := by
  refine ⟨fun _ _ _ _ _ _ _ _ => rfl, fun _ _ _ _ _ _ => rfl, ?_⟩
  have h1 : stripeSample 140 5 2 3 (fun _ _ => ⟨0, 0, 0, 255⟩) 2 0 =
      ((0 : ℝ), (0 : ℝ), (0 : ℝ)) := rfl
  have h2 : stripeSample 140 5 2 3 (fun _ _ => ⟨255, 255, 255, 255⟩) 2 0 =
      ((255 : ℝ), (255 : ℝ), (255 : ℝ)) := rfl
  rw [h1, h2]
  intro heq
  have := congrArg Prod.fst heq
  norm_num at this

theorem jsRoundR_eval (v : ℝ) (n : ℤ) (h1 : (n : ℝ) ≤ v + 1/2)
    (h2 : v + 1/2 < (n : ℝ) + 1) : jsRoundR v = (n : ℝ) := by
  unfold jsRoundR jsRound
  rw [Int.floor_eq_iff.mpr ⟨h1, by exact_mod_cast h2⟩]

theorem jsRoundQ_eval (q : ℚ) (n : ℤ) (h1 : (n : ℚ) ≤ q + 1/2)
    (h2 : q + 1/2 < (n : ℚ) + 1) : jsRoundQ q = n := by
  have hfl : (q + 1/2).floor = ⌊q + 1/2⌋ :=
    (Rat.floor_def' _).trans Rat.floor_def.symm
  rw [jsRoundQ, hfl, Int.floor_eq_iff.mpr ⟨h1, by exact_mod_cast h2⟩]

theorem mem_colsOf (a b z : ℤ) : z ∈ colsOf a b ↔ a ≤ z ∧ z < b := by
  simp only [colsOf, List.mem_map, List.mem_range]
  constructor
  · rintro ⟨k, hk, hkz⟩
    omega
  · rintro ⟨h1, h2⟩
    exact ⟨(z - a).toNat, by omega, by omega⟩

theorem nodup_colsOf (a b : ℤ) : (colsOf a b).Nodup := by
  unfold colsOf
  refine List.Nodup.map ?_ (List.nodup_range _)
  intro k1 k2 hk
  have hk2 : a + (k1 : ℤ) = a + (k2 : ℤ) := hk
  omega

theorem foldl_displaceColumn_eval (w h : ℤ) (sw : ℚ) (xs xe : ℤ)
    (src : Buffer) :
    ∀ (l : List ℤ), l.Nodup → ∀ (buf : Buffer) (x y : ℤ),
      (l.foldl (displaceColumn w h sw xs xe src) buf) x y =
        if x ∈ l ∧ 0 ≤ y ∧ y < h
        then displacePixel w sw xs xe src (buf x y) x y
        else buf x y := by
  intro l
  induction l with
  | nil => intro _ buf x y; simp
  | cons a l ih =>
    intro hnd buf x y
    rw [List.foldl_cons, ih (List.nodup_cons.mp hnd).2
      (displaceColumn w h sw xs xe src buf a) x y]
    by_cases hy : 0 ≤ y ∧ y < h
    · by_cases hx : x ∈ l
      · have hxa : x ≠ a := by
          intro he
          exact (List.nodup_cons.mp hnd).1 (he ▸ hx)
        simp [displaceColumn, hx, hy, hxa, List.mem_cons]
      · by_cases hxa : x = a
        · subst hxa
          simp [displaceColumn, hx, hy]
        · simp [displaceColumn, hx, hy, hxa, List.mem_cons]
    · simp [displaceColumn, hy, List.mem_cons]

/-- C2 amended, first half: the displacement/reflection/compositing step is a
gather — it reads its colour samples from the pre-pass snapshot `src` and
reads the working buffer only at the very pixel it overwrites, so its output
at each pixel is a function of the snapshot and that pixel's prior value
alone (column processing order is irrelevant). -/
theorem displaceStep_reads_only_snapshot_and_own_pixel (w h : ℤ) (sw : ℚ)
    (xs xe : ℤ) (src buf : Buffer) (x y : ℤ) :
    displaceStep w h sw xs xe src buf x y =
      if (xs ≤ x ∧ x < xe) ∧ 0 ≤ y ∧ y < h
      then displacePixel w sw xs xe src (buf x y) x y
      else buf x y := by
  rw [displaceStep,
    foldl_displaceColumn_eval w h sw xs xe src _ (nodup_colsOf xs xe) buf x y]
  simp only [mem_colsOf]

/-- C2 counterexample: the band blur *does* read from the buffer it is
writing into.  In a 168-pixel-wide frame, stripe 0 has interior columns
\x7b2, 3\x7d and blur radius 2.  On `cexBuf` the in-place blur of the source
first rewrites column 2 (to value 35), and column 3's window then reads that
new value, producing 115 — whereas a blur whose reads all come from the
pre-step buffer (as the spec's invariant demands) produces 110.  Stripe 3's
written value therefore depends on writes the pass made earlier. -/
theorem bandBlur_reads_own_writes :
    stripeXStart 168 0 = 2 ∧ stripeXEnd 168 0 = 4 ∧ blurRadiusOf 168 = 2 ∧
    (bandBlur 168 1 2 2 4 cexBuf 3 0).r = 115 ∧
    (bandBlurFromSnapshot 168 1 2 2 4 cexBuf 3 0).r = 110 ∧
    (115 : ℝ) ≠ 110 := by
  have hsw : stripeWidth 168 = 6 := by norm_num [stripeWidth, numStripes]
  have hgap : gapOf 168 = 2 := by
    rw [gapOf, hsw, jsRoundQ_eval (6 * 0.18 : ℚ) 1 (by norm_num) (by norm_num)]
    decide
  have hrad : blurRadiusOf 168 = 2 := by
    rw [blurRadiusOf, hsw,
      jsRoundQ_eval (6 * 0.18 : ℚ) 1 (by norm_num) (by norm_num)]
    decide
  have hxs : stripeXStart 168 0 = 2 := by
    rw [stripeXStart, hsw, hgap]
    exact jsRoundQ_eval _ 2 (by push_cast; norm_num) (by push_cast; norm_num)
  have hxe : stripeXEnd 168 0 = 4 := by
    rw [stripeXEnd, hsw, hgap]
    exact jsRoundQ_eval _ 4 (by push_cast; norm_num) (by push_cast; norm_num)
  refine ⟨hxs, hxe, hrad, ?_, ?_, by norm_num⟩
  · have hE2 : ((blurColumn 168 1 2 cexBuf 2) 2 0).r
        = jsRoundR ((0 : ℝ) * 0.3 +
            (([(0 : ℝ), 0, 0, 250, 0].sum) / (2 * ((2 : ℤ) : ℝ) + 1)) * 0.7) := rfl
    have hE2val : ((blurColumn 168 1 2 cexBuf 2) 2 0).r = 35 := by
      rw [hE2, jsRoundR_eval _ 35 (by norm_num) (by norm_num)]
      norm_num
    have hmain : (bandBlur 168 1 2 2 4 cexBuf 3 0).r
        = jsRoundR ((250 : ℝ) * 0.3 +
            (([(0 : ℝ), ((blurColumn 168 1 2 cexBuf 2) 2 0).r, 250, 0, 0].sum)
              / (2 * ((2 : ℤ) : ℝ) + 1)) * 0.7) := rfl
    rw [hmain, hE2val, jsRoundR_eval _ 115 (by norm_num) (by norm_num)]
    norm_num
  · have hsnap : (bandBlurFromSnapshot 168 1 2 2 4 cexBuf 3 0).r
        = jsRoundR ((250 : ℝ) * 0.3 +
            (([(0 : ℝ), 0, 250, 0, 0].sum) / (2 * ((2 : ℤ) : ℝ) + 1)) * 0.7) := rfl
    rw [hsnap, jsRoundR_eval _ 110 (by norm_num) (by norm_num)]
    norm_num

theorem processStripe_skip (w h : ℤ) (src buf : Buffer) (i : ℕ)
    (hi : stripeXEnd w i ≤ stripeXStart w i) :
    processStripe w h src buf i = buf := by
  simp only [processStripe]
  rw [if_pos hi]

theorem stripePass_eq_of_all_empty (w h : ℤ) (src buf : Buffer)
    (hempty : ∀ i, i < numStripes → stripeXEnd w i ≤ stripeXStart w i) :
    stripePass w h src buf = buf := by
  unfold stripePass
  have hgen : ∀ l : List ℕ, (∀ i ∈ l, stripeXEnd w i ≤ stripeXStart w i) →
      ∀ b : Buffer, l.foldl (processStripe w h src) b = b := by
    intro l
    induction l with
    | nil => intro _ b; rfl
    | cons a t ih =>
      intro hl b
      rw [List.foldl_cons, processStripe_skip w h src b a (hl a (List.mem_cons_self a t))]
      exact ih (fun i hi => hl i (List.mem_cons_of_mem a hi)) b
  exact hgen (List.range numStripes)
    (fun i hi => hempty i (List.mem_range.mp hi)) buf

/-- C10: when every stripe interior is empty (`xEnd ≤ xStart` for all 28
stripe indices — the `continue` at line 264 fires before any gap blur), the
Glass Stripe Pass writes nothing at all, and the stripes-on rendering equals
the stripes-off rendering of the same parameters. -/
theorem stripes_noop_when_interiors_empty (noise : ℝ → ℝ → ℝ)
    (cs : List RGB) (rc : RGB) (ga : ℝ) (rand : ℤ → ℤ → ℝ)
    (prev : Buffer) (w h : ℤ)
    (hempty : ∀ i, i < numStripes → stripeXEnd w i ≤ stripeXStart w i) :
    (∀ src buf : Buffer, stripePass w h src buf = buf) ∧
    renderFrame noise cs rc ga rand true prev w h =
      renderFrame noise cs rc ga rand false prev w h := by
  refine ⟨fun src buf => stripePass_eq_of_all_empty w h src buf hempty, ?_⟩
  show applyGrain (stripePass w h prev (basePass noise cs rc w h))
      (grainMapOf ga rand) =
    applyGrain (basePass noise cs rc w h) (grainMapOf ga rand)
  rw [stripePass_eq_of_all_empty w h prev _ hempty]

/-- Witness for C10 at width 112 (stripe width 4, gap 2: every interior is
empty) and height 7. -/
theorem stripes_noop_when_interiors_empty_witness :
    (∀ i, i < numStripes → stripeXEnd 112 i ≤ stripeXStart 112 i) ∧
    renderFrame (fun _ _ => 0) [] (0, 0, 0) 0 (fun _ _ => 0) true
      (fun _ _ => ⟨0, 0, 0, 255⟩) 112 7 =
    renderFrame (fun _ _ => 0) [] (0, 0, 0) 0 (fun _ _ => 0) false
      (fun _ _ => ⟨0, 0, 0, 255⟩) 112 7 := by
  have hsw : stripeWidth 112 = 4 := by norm_num [stripeWidth, numStripes]
  have hgap : gapOf 112 = 2 := by
    rw [gapOf, hsw, jsRoundQ_eval (4 * 0.18 : ℚ) 1 (by norm_num) (by norm_num)]
    decide
  have hempty : ∀ i, i < numStripes → stripeXEnd 112 i ≤ stripeXStart 112 i := by
    intro i _
    have h1 : stripeXStart 112 i = 4 * i + 2 := by
      rw [stripeXStart, hsw, hgap]
      refine jsRoundQ_eval _ (4 * i + 2) ?_ ?_ <;> push_cast <;> linarith
    have h2 : stripeXEnd 112 i = 4 * i + 2 := by
      rw [stripeXEnd, hsw, hgap]
      refine jsRoundQ_eval _ (4 * i + 2) ?_ ?_ <;> push_cast <;> linarith
    rw [h1, h2]
  exact ⟨hempty,
    (stripes_noop_when_interiors_empty (fun _ _ => 0) [] (0, 0, 0) 0
      (fun _ _ => 0) (fun _ _ => ⟨0, 0, 0, 255⟩) 112 7 hempty).2⟩
